import Mathlib

/-!
Shallow embedding of the EnergyFlask telemetry service (src/app.py): a Flask
application with one ingest endpoint (POST /api/measurements, handler
`receive_data`), one dashboard endpoint (GET /, handler `dashboard`), and a
single SQLAlchemy model `Medicion` stored in a table of timestamped readings.

Modelling decisions:
- Python floats become rationals (ℚ); the measurement values in every claim
  have exact decimal representations, so no floating-point rounding is at play.
- `datetime` timestamps become abstract server ticks (Nat); `strftime` becomes
  an injective rendering `timestampStr` of the tick.
- The database session is a `Store`: the list of committed rows plus the next
  auto-assigned primary key. A commit either succeeds (the row is appended) or
  raises; whether the database is reachable is an oracle parameter `dbOk`, and
  the text of a raised exception is an oracle parameter carried alongside.
- JSON bodies are association lists of string keys to `JsonVal` values, so the
  handler's `field in data` presence check and its value extraction are both
  expressed exactly as in the source.
- `print` logging becomes an explicit list of log lines in each handler's
  result.
-/

namespace EnergyFlask

/-- A JSON value as far as the ingest body is concerned: the sensor sends
numbers, but nothing stops a client from sending strings, booleans or null. -/
inductive JsonVal where
  | num (q : ℚ)
  | str (s : String)
  | boolean (b : Bool)
  | null
deriving DecidableEq, Repr

/-- One row of the `mediciones` table (`class Medicion` in src/app.py):
an auto-assigned integer primary key, a server-assigned timestamp, and the
six non-nullable float columns. -/
structure Medicion where
  id : Nat
  timestamp : Nat
  voltage : ℚ
  current : ℚ
  power : ℚ
  energy : ℚ
  frequency : ℚ
  pf : ℚ
deriving DecidableEq, Repr

/-- The durable state behind `db.session`: the committed rows of the
`mediciones` table, plus the next value of the auto-incrementing primary
key. -/
structure Store where
  rows : List Medicion
  nextId : Nat
deriving DecidableEq, Repr

/-- An incoming HTTP POST as `receive_data` sees it: `request.is_json`
(whether the request declares a JSON content type) and the parsed object
body returned by `request.get_json()`. -/
structure Request where
  is_json : Bool
  body : List (String × JsonVal)
deriving DecidableEq, Repr

/-- The JSON dictionaries the ingest handler returns,
`{"status": ..., "message": ...}`. -/
structure RespBody where
  status : String
  message : String
deriving DecidableEq, Repr

/-- `required_fields = ['voltage', 'current', 'power', 'energy', 'frequency', 'pf']`
from `receive_data`. -/
def required_fields : List String :=
  ["voltage", "current", "power", "energy", "frequency", "pf"]

/-- Reading field `f` of the body as the float the `Medicion` column holds:
`some q` when the key is present with a numeric value, `none` otherwise. -/
def getNum (data : List (String × JsonVal)) (f : String) : Option ℚ :=
  match data.lookup f with
  | some (JsonVal.num q) => some q
  | _ => none

/-- The try-block of `receive_data`: construct the `Medicion` from the six
body values, `db.session.add` it and `db.session.commit`. `none` models the
block raising — the database being unreachable (`dbOk = false`) or the write
being rejected (a non-numeric value headed for a non-nullable float column).
On success exactly the one new row is appended, with the server-assigned
timestamp `now` and the next primary key. -/
def tryInsert (data : List (String × JsonVal)) (store : Store) (now : Nat)
    (dbOk : Bool) : Option Store :=
  if dbOk then
    match getNum data "voltage", getNum data "current", getNum data "power",
          getNum data "energy", getNum data "frequency", getNum data "pf" with
    | some v, some c, some p, some e, some fr, some pfv =>
        some ⟨store.rows ++ [⟨store.nextId, now, v, c, p, e, fr, pfv⟩],
              store.nextId + 1⟩
    | _, _, _, _, _, _ => none
  else none

/-- The handler of POST /api/measurements (`receive_data` in src/app.py).
Returns the (body, HTTP status) pair, the resulting store, and the lines
printed to the server log. `errDetail` is the text of the exception the
commit raises when it fails (`e` in the source's `except` clause). -/
def receive_data (req : Request) (store : Store) (now : Nat)
    (dbOk : Bool) (errDetail : String) :
    (RespBody × Nat) × Store × List String :=
  if !req.is_json then
    ((⟨"error", "Content-Type must be application/json"⟩, 400), store, [])
  else
    let data := req.body
    if !(required_fields.all fun f => (data.lookup f).isSome) then
      ((⟨"error", "Faltan campos requeridos en el JSON."⟩, 400), store, [])
    else
      match tryInsert data store now dbOk with
      | some store' => ((⟨"success", "Datos guardados"⟩, 201), store', [])
      | none =>
          ((⟨"error", "Error interno del servidor al guardar"⟩, 500), store,
           ["Error al guardar datos con SQLAlchemy: " ++ errDetail])

/-- The dashboard's latest-record query:
`db.select(Medicion).order_by(Medicion.timestamp.desc()).limit(1)` followed by
`scalar_one_or_none()` — the first row of the table sorted by descending
timestamp, i.e. a row of maximal timestamp, or `none` on an empty table.
The descending sort breaks timestamp ties arbitrarily; here the earlier
row of a tie is kept. -/
def latestRow : List Medicion → Option Medicion
  | [] => none
  | m :: rest =>
      match latestRow rest with
      | none => some m
      | some b => if m.timestamp < b.timestamp then some b else some m

/-- `latest_record.timestamp.strftime("%Y-%m-%d %H:%M:%S")`, on the abstract
server tick: an injective rendering of the timestamp. -/
def timestampStr (t : Nat) : String :=
  toString t

/-- Round the fraction `num / den` (with `den > 0`) to the nearest integer,
ties to the even neighbour — the rounding Python's fixed-precision float
formatting performs. Stated on the numerator and denominator directly so
the result is computable by plain integer arithmetic. -/
def roundHalfEven (num den : Int) : Int :=
  let f := Int.fdiv num den
  let r := num - f * den
  if 2 * r < den then f
  else if den < 2 * r then f + 1
  else if f % 2 = 0 then f else f + 1

/-- Decimal digits of a natural number, left-padded with zeros to the given
width (the fractional digits of a fixed-precision rendering). -/
def natToPadded (n width : Nat) : String :=
  let s := toString n
  String.mk (List.replicate (width - s.length) '0') ++ s

/-- Python's fixed-precision float format `f"{q:.precf}"` on a rational:
round `q` to `prec` decimal places and print with exactly `prec` digits
after the point. -/
def formatFixed (prec : Nat) (q : ℚ) : String :=
  let scaled : Int := roundHalfEven (q.num * Int.ofNat (10 ^ prec)) (Int.ofNat q.den)
  let sign := if scaled < 0 then "-" else ""
  let a := scaled.natAbs
  sign ++ toString (a / 10 ^ prec) ++ "." ++ natToPadded (a % 10 ^ prec) prec

/-- The six displayed values of the dashboard (`latest_data` in
`dashboard`). -/
structure LatestData where
  voltage : ℚ
  current : ℚ
  power : ℚ
  energy : ℚ
  frequency : ℚ
  pf : ℚ
deriving DecidableEq, Repr

/-- One card of the dashboard grid, the f-string inside the
`for title, value, unit, color_class in measurements` loop. -/
def cardHtml (title value unit color_class : String) : String :=
  "\n        <div class=\"p-4 " ++ color_class ++
  " rounded-lg shadow-md transform transition duration-300 hover:scale-[1.03]\">\n            <p class=\"text-sm font-medium opacity-80\">" ++
  title ++
  "</p>\n            <p class=\"text-4xl font-extrabold mt-1\">\n                " ++
  value ++
  "\n                <span class=\"text-xl font-semibold ml-1 opacity-70\">" ++
  unit ++ "</span>\n            </p>\n        </div>\n        "

/-- What GET / renders: the HTTP status, the raw `latest_data` values, the
`last_update` string, the `measurements` list of
(title, formatted value, unit, colour class) tuples, and the concatenated
`cards_html` substituted into the page template. -/
structure DashboardPage where
  httpStatus : Nat
  latest_data : LatestData
  last_update : String
  measurements : List (String × String × String × String)
  cards_html : String
deriving DecidableEq, Repr

/-- The handler of GET / (`dashboard` in src/app.py). `qErr = some e` models
the latest-record query raising with exception text `e` (database
unreachable); `qErr = none` is the query running normally. Returns the
rendered page data and the lines printed to the server log; the HTTP status
is 200 on every path, because Flask returns 200 for a handler that returns a
bare rendered template. -/
def dashboard (store : Store) (qErr : Option String) :
    DashboardPage × List String :=
  let fetched : LatestData × String × List String :=
    match qErr with
    | none =>
        match latestRow store.rows with
        | some r =>
            (⟨r.voltage, r.current, r.power, r.energy, r.frequency, r.pf⟩,
             timestampStr r.timestamp, [])
        | none =>
            (⟨0, 0, 0, 0, 0, 0⟩, "No hay datos aún", [])
    | some e =>
        (⟨0, 0, 0, 0, 0, 0⟩, "Error de conexión a la base de datos",
         ["Error al obtener datos con SQLAlchemy: " ++ e])
  let latest_data := fetched.1
  let measurements : List (String × String × String × String) :=
    [("Voltaje (V)", formatFixed 2 latest_data.voltage, "V",
      "bg-blue-100 text-blue-800"),
     ("Corriente (A)", formatFixed 3 latest_data.current, "A",
      "bg-green-100 text-green-800"),
     ("Potencia (W)", formatFixed 1 latest_data.power, "W",
      "bg-red-100 text-red-800"),
     ("Energía (kWh)", formatFixed 3 latest_data.energy, "kWh",
      "bg-yellow-100 text-yellow-800"),
     ("Frecuencia (Hz)", formatFixed 1 latest_data.frequency, "Hz",
      "bg-purple-100 text-purple-800"),
     ("Factor de Potencia (PF)", formatFixed 2 latest_data.pf, "",
      "bg-indigo-100 text-indigo-800")]
  let cards_html := measurements.foldl
    (fun acc m => acc ++ cardHtml m.1 m.2.1 m.2.2.1 m.2.2.2) ""
  ({httpStatus := 200, latest_data := latest_data, last_update := fetched.2.1,
    measurements := measurements, cards_html := cards_html}, fetched.2.2)

/-! Helper lemmas about the embedded operations, shared by the claim
theorems below. -/

/-- A field read as a number is in particular present in the body. -/
theorem getNum_isSome {data : List (String × JsonVal)} {f : String} {x : ℚ}
    (h : getNum data f = some x) : (data.lookup f).isSome = true := by
  unfold getNum at h
  cases hl : data.lookup f <;> rw [hl] at h
  · exact absurd h (by simp)
  · rfl

/-- The latest-record query is empty exactly on an empty table. -/
theorem latestRow_eq_none_iff (l : List Medicion) :
    latestRow l = none ↔ l = [] := by
  cases l with
  | nil => simp [latestRow]
  | cons m rest =>
      simp only [latestRow]
      cases h : latestRow rest
      · simp
      · rename_i b
        by_cases hlt : m.timestamp < b.timestamp <;> simp [hlt]

/-- The latest-record query returns a row of the table. -/
theorem latestRow_mem : ∀ (l : List Medicion) (r : Medicion),
    latestRow l = some r → r ∈ l := by
  intro l
  induction l with
  | nil => intro r h; simp [latestRow] at h
  | cons m rest ih =>
      intro r h
      rw [latestRow] at h
      cases hr : latestRow rest <;> rw [hr] at h
      · simp at h
        subst h
        exact List.mem_cons_self _ _
      · rename_i b
        by_cases hlt : m.timestamp < b.timestamp <;> simp [hlt] at h
        · subst h
          exact List.mem_cons_of_mem _ (ih b hr)
        · subst h
          exact List.mem_cons_self _ _

/-- The row the latest-record query returns has the greatest timestamp of
the table. -/
theorem latestRow_le : ∀ (l : List Medicion) (r : Medicion),
    latestRow l = some r → ∀ m ∈ l, m.timestamp ≤ r.timestamp := by
  intro l
  induction l with
  | nil => intro r h; simp [latestRow] at h
  | cons m rest ih =>
      intro r h
      rw [latestRow] at h
      cases hr : latestRow rest <;> rw [hr] at h
      · have hrest : rest = [] := (latestRow_eq_none_iff rest).mp hr
        subst hrest
        simp at h
        subst h
        simp
      · rename_i b
        intro x hx
        rcases List.mem_cons.mp hx with rfl | hxr
        · by_cases hlt : x.timestamp < b.timestamp <;> simp [hlt] at h
          · subst h
            exact Nat.le_of_lt hlt
          · subst h
            exact Nat.le_refl _
        · have hxb := ih b hr x hxr
          by_cases hlt : m.timestamp < b.timestamp <;> simp [hlt] at h
          · subst h
            exact hxb
          · subst h
            exact Nat.le_trans hxb (Nat.le_of_not_lt hlt)

/-- C1: a POST to /api/measurements with a JSON content type whose body
contains all six required fields with numeric values is answered, when the
commit succeeds, with status 201 and body
`{"status":"success","message":"Datos guardados"}`, and exactly one row is
appended to the store — the six provided values under the server-assigned
timestamp and the next primary key — so the row count grows by exactly 1. -/
theorem c1_valid_post_inserts_one_row
    (req : Request) (store : Store) (now : Nat) (errDetail : String)
    (v c p e fr pfv : ℚ)
    (hj : req.is_json = true)
    (hv : getNum req.body "voltage" = some v)
    (hc : getNum req.body "current" = some c)
    (hp : getNum req.body "power" = some p)
    (he : getNum req.body "energy" = some e)
    (hf : getNum req.body "frequency" = some fr)
    (hq : getNum req.body "pf" = some pfv) :
    receive_data req store now true errDetail =
      ((⟨"success", "Datos guardados"⟩, 201),
       ⟨store.rows ++ [⟨store.nextId, now, v, c, p, e, fr, pfv⟩],
        store.nextId + 1⟩, []) ∧
    (receive_data req store now true errDetail).2.1.rows.length =
      store.rows.length + 1 := by
  have hall : (required_fields.all fun f => (req.body.lookup f).isSome) = true := by
    simp [required_fields, getNum_isSome hv, getNum_isSome hc, getNum_isSome hp,
      getNum_isSome he, getNum_isSome hf, getNum_isSome hq]
  have key : receive_data req store now true errDetail =
      ((⟨"success", "Datos guardados"⟩, 201),
       ⟨store.rows ++ [⟨store.nextId, now, v, c, p, e, fr, pfv⟩],
        store.nextId + 1⟩, []) := by
    simp only [receive_data, hj, hall, tryInsert, hv, hc, hp, he, hf, hq]
    simp
  refine ⟨key, ?_⟩
  rw [key]
  simp

/-- C1 witness: the success path evaluated on a concrete valid payload
against the empty store. -/
theorem c1_witness :
    receive_data ⟨true, [("voltage", JsonVal.num 1), ("current", JsonVal.num 2),
        ("power", JsonVal.num 3), ("energy", JsonVal.num 4),
        ("frequency", JsonVal.num 5), ("pf", JsonVal.num (mkRat 1 2))]⟩
      ⟨[], 1⟩ 7 true "" =
      ((⟨"success", "Datos guardados"⟩, 201),
       ⟨[⟨1, 7, 1, 2, 3, 4, 5, mkRat 1 2⟩], 2⟩, []) ∧
    (receive_data ⟨true, [("voltage", JsonVal.num 1), ("current", JsonVal.num 2),
        ("power", JsonVal.num 3), ("energy", JsonVal.num 4),
        ("frequency", JsonVal.num 5), ("pf", JsonVal.num (mkRat 1 2))]⟩
      ⟨[], 1⟩ 7 true "").2.1.rows.length = 1 :=
  c1_valid_post_inserts_one_row _ _ _ _ 1 2 3 4 5 (mkRat 1 2)
    rfl rfl rfl rfl rfl rfl rfl

/-- C2: a POST to /api/measurements with a JSON content type whose body is
missing at least one of the six required fields is answered with status 400
and the error message `Faltan campos requeridos en el JSON.`, and the store
is returned unchanged (no row is written, whatever the database state). -/
theorem c2_missing_field_400
    (req : Request) (store : Store) (now : Nat) (dbOk : Bool) (errDetail : String)
    (hj : req.is_json = true) (f : String) (hf : f ∈ required_fields)
    (hmiss : req.body.lookup f = none) :
    receive_data req store now dbOk errDetail =
      ((⟨"error", "Faltan campos requeridos en el JSON."⟩, 400), store, []) := by
  have hall : (required_fields.all fun g => (req.body.lookup g).isSome) = false := by
    cases hb : (required_fields.all fun g => (req.body.lookup g).isSome)
    · rfl
    · have hp := List.all_eq_true.mp hb f hf
      rw [hmiss] at hp
      simp at hp
  simp [receive_data, hj, hall]

/-- C2 witness: a body providing only `voltage` is rejected with 400 and the
store is untouched. -/
theorem c2_witness :
    receive_data ⟨true, [("voltage", JsonVal.num 1)]⟩ ⟨[], 1⟩ 7 true "" =
      ((⟨"error", "Faltan campos requeridos en el JSON."⟩, 400), ⟨[], 1⟩, []) :=
  c2_missing_field_400 _ _ _ _ _ rfl "current" (by decide) rfl

/-- C6: a POST to /api/measurements that does not declare a JSON content
type is answered with status 400 and the message
`Content-Type must be application/json`, whatever the body holds, and the
store is returned unchanged. -/
theorem c6_content_type_400
    (req : Request) (store : Store) (now : Nat) (dbOk : Bool) (errDetail : String)
    (hj : req.is_json = false) :
    receive_data req store now dbOk errDetail =
      ((⟨"error", "Content-Type must be application/json"⟩, 400), store, []) := by
  simp [receive_data, hj]

/-- C6 witness: a non-JSON request carrying a complete, well-formed body is
still rejected with the content-type message. -/
theorem c6_witness :
    receive_data ⟨false, [("voltage", JsonVal.num 1), ("current", JsonVal.num 2),
        ("power", JsonVal.num 3), ("energy", JsonVal.num 4),
        ("frequency", JsonVal.num 5), ("pf", JsonVal.num 1)]⟩ ⟨[], 1⟩ 7 true "" =
      ((⟨"error", "Content-Type must be application/json"⟩, 400), ⟨[], 1⟩, []) :=
  c6_content_type_400 _ _ _ _ _ rfl

/-- C4: a POST that passes content-type and field-presence validation but
whose commit fails (database unreachable, or the write rejected) is rolled back —
the returned store is exactly the original, so no partial row is stored —
the exception is logged server-side with its detail, and the response is
status 500 with the fixed generic message
`Error interno del servidor al guardar`. Because the response is the same
for every exception text `errDetail`, the original failure detail never
reaches the caller (it appears only in the server log). -/
theorem c4_persistence_failure_rolls_back
    (req : Request) (store : Store) (now : Nat) (dbOk : Bool) (errDetail : String)
    (hj : req.is_json = true)
    (hall : (required_fields.all fun f => (req.body.lookup f).isSome) = true)
    (hfail : tryInsert req.body store now dbOk = none) :
    receive_data req store now dbOk errDetail =
      ((⟨"error", "Error interno del servidor al guardar"⟩, 500), store,
       ["Error al guardar datos con SQLAlchemy: " ++ errDetail]) := by
  simp [receive_data, hj, hall, hfail]

/-- C4 witness: a fully valid payload against an unreachable database gets
the generic 500 and the store stays empty, while the log keeps the detail. -/
theorem c4_witness :
    receive_data ⟨true, [("voltage", JsonVal.num 1), ("current", JsonVal.num 2),
        ("power", JsonVal.num 3), ("energy", JsonVal.num 4),
        ("frequency", JsonVal.num 5), ("pf", JsonVal.num 1)]⟩
      ⟨[], 1⟩ 7 false "connection refused" =
      ((⟨"error", "Error interno del servidor al guardar"⟩, 500), ⟨[], 1⟩,
       ["Error al guardar datos con SQLAlchemy: connection refused"]) :=
  c4_persistence_failure_rolls_back _ _ _ _ _ rfl (by decide) (by decide)

/-- C10: ingest validation checks only the presence of the six keys, never
the type of their values. For every JSON POST whose body contains all six
keys — with values numeric or not — the 400-validation branch is not taken:
the status is 201 or 500, and whenever the attempted insert fails (as it
does for a non-numeric value headed for a float column) the handler is
already past validation, in the try-block, answering with the insert-error
500. -/
theorem c10_validation_checks_presence_only
    (req : Request) (store : Store) (now : Nat) (dbOk : Bool) (errDetail : String)
    (hj : req.is_json = true)
    (hall : (required_fields.all fun f => (req.body.lookup f).isSome) = true) :
    ((receive_data req store now dbOk errDetail).1.2 = 201 ∨
     (receive_data req store now dbOk errDetail).1.2 = 500) ∧
    (tryInsert req.body store now dbOk = none →
      receive_data req store now dbOk errDetail =
        ((⟨"error", "Error interno del servidor al guardar"⟩, 500), store,
         ["Error al guardar datos con SQLAlchemy: " ++ errDetail])) := by
  cases hins : tryInsert req.body store now dbOk <;>
    simp [receive_data, hj, hall, hins]

/-- C10 witness: a body whose `voltage` is the string `"abc"` passes
validation and reaches the insert attempt, which fails — the response is
the insert-error 500, not the validation 400. -/
theorem c10_witness :
    ((receive_data ⟨true, [("voltage", JsonVal.str "abc"), ("current", JsonVal.num 2),
        ("power", JsonVal.num 3), ("energy", JsonVal.num 4),
        ("frequency", JsonVal.num 5), ("pf", JsonVal.num 1)]⟩
      ⟨[], 1⟩ 7 true "x").1.2 = 201 ∨
     (receive_data ⟨true, [("voltage", JsonVal.str "abc"), ("current", JsonVal.num 2),
        ("power", JsonVal.num 3), ("energy", JsonVal.num 4),
        ("frequency", JsonVal.num 5), ("pf", JsonVal.num 1)]⟩
      ⟨[], 1⟩ 7 true "x").1.2 = 500) ∧
    (tryInsert [("voltage", JsonVal.str "abc"), ("current", JsonVal.num 2),
        ("power", JsonVal.num 3), ("energy", JsonVal.num 4),
        ("frequency", JsonVal.num 5), ("pf", JsonVal.num 1)] ⟨[], 1⟩ 7 true = none →
      receive_data ⟨true, [("voltage", JsonVal.str "abc"), ("current", JsonVal.num 2),
        ("power", JsonVal.num 3), ("energy", JsonVal.num 4),
        ("frequency", JsonVal.num 5), ("pf", JsonVal.num 1)]⟩
      ⟨[], 1⟩ 7 true "x" =
        ((⟨"error", "Error interno del servidor al guardar"⟩, 500), ⟨[], 1⟩,
         ["Error al guardar datos con SQLAlchemy: x"])) :=
  c10_validation_checks_presence_only _ _ _ _ _ rfl (by decide)

/-- C3: on a store whose latest-record query yields a row, GET / displays
exactly that row's six values and its timestamp, the returned row belongs
to the store and carries the greatest timestamp of all stored rows, and the
query comes back empty exactly when the store has never received a row. In
particular, after inserts at timestamps t1 < t2 the page shows the row
stored at t2. -/
theorem c3_dashboard_shows_latest (s : Store) (r : Medicion)
    (h : latestRow s.rows = some r) :
    (dashboard s none).1.latest_data =
      ⟨r.voltage, r.current, r.power, r.energy, r.frequency, r.pf⟩ ∧
    (dashboard s none).1.last_update = timestampStr r.timestamp ∧
    r ∈ s.rows ∧
    (∀ m ∈ s.rows, m.timestamp ≤ r.timestamp) ∧
    (latestRow s.rows = none ↔ s.rows = []) := by
  refine ⟨?_, ?_, latestRow_mem _ _ h, latestRow_le _ _ h,
    latestRow_eq_none_iff _⟩ <;> simp [dashboard, h]

/-- C3 witness: with two rows at timestamps 3 < 9, the dashboard displays
the six values of the row stored at timestamp 9. -/
theorem c3_witness :
    (dashboard ⟨[⟨1, 3, 1, 2, 3, 4, 5, 6⟩, ⟨2, 9, 7, 8, 9, 10, 11, 12⟩], 3⟩
        none).1.latest_data = ⟨7, 8, 9, 10, 11, 12⟩ ∧
    (dashboard ⟨[⟨1, 3, 1, 2, 3, 4, 5, 6⟩, ⟨2, 9, 7, 8, 9, 10, 11, 12⟩], 3⟩
        none).1.last_update = timestampStr 9 ∧
    (⟨2, 9, 7, 8, 9, 10, 11, 12⟩ : Medicion) ∈
      [⟨1, 3, 1, 2, 3, 4, 5, 6⟩, ⟨2, 9, 7, 8, 9, 10, 11, 12⟩] ∧
    (∀ m ∈ [(⟨1, 3, 1, 2, 3, 4, 5, 6⟩ : Medicion), ⟨2, 9, 7, 8, 9, 10, 11, 12⟩],
      m.timestamp ≤ 9) ∧
    (latestRow [⟨1, 3, 1, 2, 3, 4, 5, 6⟩, ⟨2, 9, 7, 8, 9, 10, 11, 12⟩] = none ↔
      [(⟨1, 3, 1, 2, 3, 4, 5, 6⟩ : Medicion), ⟨2, 9, 7, 8, 9, 10, 11, 12⟩] = []) :=
  c3_dashboard_shows_latest _ ⟨2, 9, 7, 8, 9, 10, 11, 12⟩ (by decide)

/-- C5: when the latest-record query raises (database unreachable), GET /
absorbs the failure: the exception is logged with its detail, the page
renders with the all-zero placeholder values and the connection-error
status string `Error de conexión a la base de datos`, and the HTTP status
is still 200 — the failure is never surfaced as an HTTP error. -/
theorem c5_query_failure_absorbed (s : Store) (e : String) :
    (dashboard s (some e)).1.httpStatus = 200 ∧
    (dashboard s (some e)).1.latest_data = ⟨0, 0, 0, 0, 0, 0⟩ ∧
    (dashboard s (some e)).1.last_update = "Error de conexión a la base de datos" ∧
    (dashboard s (some e)).2 = ["Error al obtener datos con SQLAlchemy: " ++ e] :=
  ⟨rfl, rfl, rfl, rfl⟩

/-- C7: GET / on an empty store (the query succeeds but yields no row)
renders with HTTP status 200, all six displayed values zero — formatted as
the zero strings of each card — and the no-data indicator
`No hay datos aún` in place of the timestamp. -/
theorem c7_empty_store_placeholder (s : Store) (hs : s.rows = []) :
    (dashboard s none).1.httpStatus = 200 ∧
    (dashboard s none).1.latest_data = ⟨0, 0, 0, 0, 0, 0⟩ ∧
    (dashboard s none).1.last_update = "No hay datos aún" ∧
    (dashboard s none).1.measurements =
      [("Voltaje (V)", "0.00", "V", "bg-blue-100 text-blue-800"),
       ("Corriente (A)", "0.000", "A", "bg-green-100 text-green-800"),
       ("Potencia (W)", "0.0", "W", "bg-red-100 text-red-800"),
       ("Energía (kWh)", "0.000", "kWh", "bg-yellow-100 text-yellow-800"),
       ("Frecuencia (Hz)", "0.0", "Hz", "bg-purple-100 text-purple-800"),
       ("Factor de Potencia (PF)", "0.00", "", "bg-indigo-100 text-indigo-800")] := by
  have h : latestRow s.rows = none := by
    rw [hs]
    rfl
  refine ⟨rfl, ?_, ?_, ?_⟩
  · simp [dashboard, h]
  · simp [dashboard, h]
  · simp only [dashboard, h]
    decide

/-- C7 witness: the empty store evaluated concretely. -/
theorem c7_witness :
    (dashboard ⟨[], 1⟩ none).1.httpStatus = 200 ∧
    (dashboard ⟨[], 1⟩ none).1.latest_data = ⟨0, 0, 0, 0, 0, 0⟩ ∧
    (dashboard ⟨[], 1⟩ none).1.last_update = "No hay datos aún" ∧
    (dashboard ⟨[], 1⟩ none).1.measurements =
      [("Voltaje (V)", "0.00", "V", "bg-blue-100 text-blue-800"),
       ("Corriente (A)", "0.000", "A", "bg-green-100 text-green-800"),
       ("Potencia (W)", "0.0", "W", "bg-red-100 text-red-800"),
       ("Energía (kWh)", "0.000", "kWh", "bg-yellow-100 text-yellow-800"),
       ("Frecuencia (Hz)", "0.0", "Hz", "bg-purple-100 text-purple-800"),
       ("Factor de Potencia (PF)", "0.00", "", "bg-indigo-100 text-indigo-800")] :=
  c7_empty_store_placeholder ⟨[], 1⟩ rfl

/-- C8: the dashboard renders the six values with the fixed precisions and
unit labels of the source — voltage `:.2f` with unit V, current `:.3f` with
A, power `:.1f` with W, energy `:.3f` with kWh, frequency `:.1f` with Hz,
power factor `:.2f` with no unit — and on the spec's scenario payload
(voltage 220.5, current 1.234, power 272.3, energy 0.512, frequency 60.0,
pf 0.98), POSTed successfully and then read back, the page shows
"220.50" V, "1.234" A, "272.3" W, "0.512" kWh, "60.0" Hz and "0.98". -/
theorem c8_fixed_precision_formatting :
    (∀ (s : Store) (qErr : Option String),
      (dashboard s qErr).1.measurements =
        [("Voltaje (V)", formatFixed 2 (dashboard s qErr).1.latest_data.voltage,
          "V", "bg-blue-100 text-blue-800"),
         ("Corriente (A)", formatFixed 3 (dashboard s qErr).1.latest_data.current,
          "A", "bg-green-100 text-green-800"),
         ("Potencia (W)", formatFixed 1 (dashboard s qErr).1.latest_data.power,
          "W", "bg-red-100 text-red-800"),
         ("Energía (kWh)", formatFixed 3 (dashboard s qErr).1.latest_data.energy,
          "kWh", "bg-yellow-100 text-yellow-800"),
         ("Frecuencia (Hz)", formatFixed 1 (dashboard s qErr).1.latest_data.frequency,
          "Hz", "bg-purple-100 text-purple-800"),
         ("Factor de Potencia (PF)", formatFixed 2 (dashboard s qErr).1.latest_data.pf,
          "", "bg-indigo-100 text-indigo-800")]) ∧
    ((receive_data ⟨true, [("voltage", JsonVal.num (mkRat 2205 10)),
        ("current", JsonVal.num (mkRat 1234 1000)),
        ("power", JsonVal.num (mkRat 2723 10)),
        ("energy", JsonVal.num (mkRat 512 1000)),
        ("frequency", JsonVal.num 60),
        ("pf", JsonVal.num (mkRat 98 100))]⟩ ⟨[], 1⟩ 5 true "").1.2 = 201 ∧
     (dashboard (receive_data ⟨true, [("voltage", JsonVal.num (mkRat 2205 10)),
        ("current", JsonVal.num (mkRat 1234 1000)),
        ("power", JsonVal.num (mkRat 2723 10)),
        ("energy", JsonVal.num (mkRat 512 1000)),
        ("frequency", JsonVal.num 60),
        ("pf", JsonVal.num (mkRat 98 100))]⟩ ⟨[], 1⟩ 5 true "").2.1
          none).1.measurements =
       [("Voltaje (V)", "220.50", "V", "bg-blue-100 text-blue-800"),
        ("Corriente (A)", "1.234", "A", "bg-green-100 text-green-800"),
        ("Potencia (W)", "272.3", "W", "bg-red-100 text-red-800"),
        ("Energía (kWh)", "0.512", "kWh", "bg-yellow-100 text-yellow-800"),
        ("Frecuencia (Hz)", "60.0", "Hz", "bg-purple-100 text-purple-800"),
        ("Factor de Potencia (PF)", "0.98", "", "bg-indigo-100 text-indigo-800")]) :=
  ⟨fun s qErr => rfl, by decide, by decide⟩

/-- C9: the dashboard handler is a deterministic function of the store's
latest row and of the query outcome: two renders over stores whose
latest-record queries agree — in particular two consecutive GETs against
the same unchanged store — produce identical pages and logs. -/
theorem c9_render_deterministic (s₁ s₂ : Store) (qErr : Option String)
    (h : latestRow s₁.rows = latestRow s₂.rows) :
    dashboard s₁ qErr = dashboard s₂ qErr := by
  simp only [dashboard, h]

/-- C9 witness: two stores sharing the same latest row — one holding an
older row besides, and a different primary-key counter — render the same
page. -/
theorem c9_witness :
    dashboard ⟨[⟨1, 3, 1, 2, 3, 4, 5, 6⟩, ⟨2, 9, 7, 8, 9, 10, 11, 12⟩], 3⟩ none =
    dashboard ⟨[⟨2, 9, 7, 8, 9, 10, 11, 12⟩], 7⟩ none :=
  c9_render_deterministic _ _ _ (by decide)

end EnergyFlask
